import Mathlib

/-!
Verification of the Salesforce REST client (`mcp_salesforce/salesforce/client.py`):
a shallow embedding of the OAuth refresh-token flow, the authenticated request
pipeline with its single retry on INVALID_SESSION_ID, and the thin domain
operations (contacts, appointments, SOQL queries) built on top of it.

Modelling conventions:
  - HTTP responses are records of a status code, a body text, and the JSON
    object of the body flattened to a string-valued association list (the only
    fields the client reads are strings: access_token, instance_url, id).
  - The network is an oracle: `tokenResp n` is the response to the n-th POST to
    the OAuth token endpoint made during one pipeline call, `apiResp n` the
    response to the n-th resource request.
  - Python exceptions become an error sum type threaded through `Except`;
    mutation of the client object becomes explicit state passing, preserving
    the statement order of the source (so which partial state is observable on
    an error path is exactly the source's).
  - Python's `None` for the cached access token is `Option.none`; the empty
    string the constructor actually stores is `some ""`.
-/

deriving instance DecidableEq for Except

/-- Strip all leading '/' characters, as Python's `path.lstrip("/")`. -/
def lstripSlash (s : String) : String :=
  String.mk (s.data.dropWhile (fun c => c == '/'))

/-- Strip all trailing '/' characters, as Python's `url.rstrip("/")`. -/
def rstripSlash (s : String) : String :=
  String.mk ((s.data.reverse.dropWhile (fun c => c == '/')).reverse)

/-- Substring test on character lists: does `pat` occur contiguously? -/
def charsHasSub (pat : List Char) : List Char → Bool
  | [] => pat.isEmpty
  | c :: cs => pat.isPrefixOf (c :: cs) || charsHasSub pat cs

/-- Python's `pat in s` substring containment. -/
def strContains (s pat : String) : Bool :=
  charsHasSub pat.data s.data

/-- Lookup in a flattened JSON object, as Python's `payload.get(key)`. -/
def lookupJson (j : List (String × String)) (k : String) : Option String :=
  match j with
  | [] => none
  | (k', v) :: rest => if k' == k then some v else lookupJson rest k

/-- An HTTP response: status code, body text, and the body's JSON object
flattened to the string-valued fields the client reads. -/
structure Response where
  status : Nat
  text : String
  json : List (String × String)
deriving Repr, DecidableEq

/-- The Python exceptions the client can raise. -/
inductive SfError where
  /-- `SalesforceAuthError` raised by `_refresh_access_token`, carrying the
  formatted status and body of the token-endpoint response. -/
  | salesforceAuthError (status : Nat) (body : String)
  /-- Python `KeyError` from a missing JSON field. -/
  | keyError (key : String)
  /-- `httpx.HTTPStatusError` from `response.raise_for_status()`. -/
  | httpStatusError (status : Nat) (body : String)
deriving Repr, DecidableEq

/-- `httpx.Response.raise_for_status`: returns the response if its status is
2xx, raises `HTTPStatusError` otherwise. -/
def raiseForStatus (resp : Response) : Except SfError Response :=
  if 200 ≤ resp.status ∧ resp.status < 300 then .ok resp
  else .error (.httpStatusError resp.status resp.text)

/-- The mutable state of a `SalesforceClient` instance (the credential fields
are immutable and do not appear in any claim, so they are omitted). -/
structure ClientState where
  instanceUrl : String
  apiVersion : String
  apiBaseUrl : String
  /-- `none` models Python `None`; the constructor stores `some ""`. -/
  accessToken : Option String
deriving Repr, DecidableEq

/-- `SalesforceClient.__init__`: the instance URL is right-stripped of slashes,
the API base URL derived from it, and the access token set to the EMPTY STRING
(not `None`). -/
def initClient (settingsInstanceUrl settingsApiVersion : String) : ClientState :=
  let instanceUrl := rstripSlash settingsInstanceUrl
  { instanceUrl := instanceUrl
  , apiVersion := settingsApiVersion
  , apiBaseUrl := instanceUrl ++ "/services/data/" ++ settingsApiVersion
  , accessToken := some "" }

/-- Result of `_refresh_access_token`: the returned token or the raised
exception, plus the client state after the call. -/
structure RefreshResult where
  outcome : Except SfError String
  state : ClientState
deriving Repr, DecidableEq

/-- `SalesforceClient._refresh_access_token`, applied to the token-endpoint
response `resp`. Mirrors the source statement by statement: raise
`SalesforceAuthError` when `status_code >= 400`; read `access_token` (KeyError
when absent); if `instance_url` is present replace the cached instance URL with
it right-stripped; always recompute the API base URL; cache the token. -/
def refresh_access_token (st : ClientState) (resp : Response) : RefreshResult :=
  if 400 ≤ resp.status then
    { outcome := .error (.salesforceAuthError resp.status resp.text), state := st }
  else
    match lookupJson resp.json "access_token" with
    | none => { outcome := .error (.keyError "access_token"), state := st }
    | some token =>
      let instanceUrl :=
        match lookupJson resp.json "instance_url" with
        | some u => rstripSlash u
        | none => st.instanceUrl
      let apiBaseUrl := instanceUrl ++ "/services/data/" ++ st.apiVersion
      { outcome := .ok token
      , state := { instanceUrl := instanceUrl
                 , apiVersion := st.apiVersion
                 , apiBaseUrl := apiBaseUrl
                 , accessToken := some token } }

/-- One HTTP request as handed to `httpx.Client.request`: method, full URL,
query params, optional JSON body, and the Authorization and Content-Type
headers. -/
structure SentRequest where
  method : String
  url : String
  params : List (String × String)
  body : Option (List (String × String))
  authorization : String
  contentType : Option String
deriving Repr, DecidableEq

/-- Result of `_make_request`: the returned response or raised exception, the
client state after the call, the resource requests actually sent in order, and
the number of calls made to the token endpoint. -/
structure RequestResult where
  outcome : Except SfError Response
  state : ClientState
  sent : List SentRequest
  refreshCalls : Nat
deriving Repr, DecidableEq

/-- The tail of `_make_request` once a token has been chosen: build headers,
send, and on a 401 whose body contains INVALID_SESSION_ID refresh once and
resend. As in the source, the retry's headers are rebuilt from the local
`token` variable (not the refreshed token) and omit Content-Type. -/
def makeRequestWithToken (st : ClientState) (method url : String)
    (params : List (String × String)) (jsonBody : Option (List (String × String)))
    (retryOnInvalidSession : Bool)
    (apiResp : Nat → Response) (tokenResp : Nat → Response)
    (token : String) (refreshesSoFar : Nat) : RequestResult :=
  let contentType :=
    if method.toUpper == "POST" || method.toUpper == "PATCH" then
      some "application/json"
    else none
  let req0 : SentRequest :=
    { method := method, url := url, params := params, body := jsonBody
    , authorization := "Bearer " ++ token, contentType := contentType }
  let resp0 := apiResp 0
  if retryOnInvalidSession && resp0.status == 401
      && strContains resp0.text "INVALID_SESSION_ID" then
    let r := refresh_access_token st (tokenResp refreshesSoFar)
    match r.outcome with
    | .error e =>
      { outcome := .error e, state := r.state, sent := [req0]
      , refreshCalls := refreshesSoFar + 1 }
    | .ok _newToken =>
      let req1 : SentRequest :=
        { method := method, url := url, params := params, body := jsonBody
        , authorization := "Bearer " ++ token, contentType := none }
      let resp1 := apiResp 1
      { outcome := raiseForStatus resp1, state := r.state, sent := [req0, req1]
      , refreshCalls := refreshesSoFar + 1 }
  else
    { outcome := raiseForStatus resp0, state := st, sent := [req0]
    , refreshCalls := refreshesSoFar }

/-- `SalesforceClient._make_request`: strip leading slashes from the path,
build the URL from the cached API base, refresh first only when the cached
token is Python `None`, then send with retry-once-on-invalid-session. -/
def make_request (st : ClientState) (method path : String)
    (params : List (String × String)) (jsonBody : Option (List (String × String)))
    (retryOnInvalidSession : Bool)
    (apiResp : Nat → Response) (tokenResp : Nat → Response) : RequestResult :=
  let path' := lstripSlash path
  let url := st.apiBaseUrl ++ "/" ++ path'
  match st.accessToken with
  | none =>
    let r := refresh_access_token st (tokenResp 0)
    match r.outcome with
    | .error e => { outcome := .error e, state := r.state, sent := [], refreshCalls := 1 }
    | .ok token =>
      makeRequestWithToken r.state method url params jsonBody
        retryOnInvalidSession apiResp tokenResp token 1
  | some token =>
    makeRequestWithToken st method url params jsonBody
      retryOnInvalidSession apiResp tokenResp token 0

/-- Result of a domain operation returning a value of type α. -/
structure OpResult (α : Type) where
  outcome : Except SfError α
  state : ClientState
  sent : List SentRequest
  refreshCalls : Nat
deriving Repr

/-- Shared tail of the two create operations: `raise_for_status` then
`response.json()["id"]` (KeyError when absent). -/
def extractId (r : RequestResult) : OpResult String :=
  match r.outcome with
  | .error e => { outcome := .error e, state := r.state, sent := r.sent, refreshCalls := r.refreshCalls }
  | .ok resp =>
    match raiseForStatus resp with
    | .error e => { outcome := .error e, state := r.state, sent := r.sent, refreshCalls := r.refreshCalls }
    | .ok resp' =>
      match lookupJson resp'.json "id" with
      | some v => { outcome := .ok v, state := r.state, sent := r.sent, refreshCalls := r.refreshCalls }
      | none => { outcome := .error (.keyError "id"), state := r.state, sent := r.sent, refreshCalls := r.refreshCalls }

/-- `SalesforceClient.create_contact`: POST /sobjects/Contact, then return
`str(response.json()["id"])` (identity on our string-valued JSON model). -/
def create_contact (st : ClientState) (fields : List (String × String))
    (apiResp tokenResp : Nat → Response) : OpResult String :=
  extractId (make_request st "POST" "/sobjects/Contact" [] (some fields) true apiResp tokenResp)

/-- `SalesforceClient.create_appointment`: POST /sobjects/Event, then return
`response.json()["id"]`. -/
def create_appointment (st : ClientState) (fields : List (String × String))
    (apiResp tokenResp : Nat → Response) : OpResult String :=
  extractId (make_request st "POST" "/sobjects/Event" [] (some fields) true apiResp tokenResp)

/-- `SalesforceClient.query`: GET /query with the SOQL string as the `q`
query parameter, `raise_for_status`, and return the response JSON. -/
def query (st : ClientState) (soql : String)
    (apiResp tokenResp : Nat → Response) : OpResult (List (String × String)) :=
  let r := make_request st "GET" "/query" [("q", soql)] none true apiResp tokenResp
  match r.outcome with
  | .error e => { outcome := .error e, state := r.state, sent := r.sent, refreshCalls := r.refreshCalls }
  | .ok resp =>
    match raiseForStatus resp with
    | .error e => { outcome := .error e, state := r.state, sent := r.sent, refreshCalls := r.refreshCalls }
    | .ok resp' => { outcome := .ok resp'.json, state := r.state, sent := r.sent, refreshCalls := r.refreshCalls }

/-- The SOQL string built by `SalesforceClient.list_contacts` (Python
`int(limit)` is the identity on an int argument). -/
def listContactsSoql (limit : Int) : String :=
  "SELECT Id, FirstName, LastName, Phone, Email "
    ++ "FROM Contact ORDER BY CreatedDate DESC "
    ++ "LIMIT " ++ toString limit

/-- `SalesforceClient.list_contacts`: build the fixed SOQL string and run it
through `query`. -/
def list_contacts (st : ClientState) (limit : Int)
    (apiResp tokenResp : Nat → Response) : OpResult (List (String × String)) :=
  query st (listContactsSoql limit) apiResp tokenResp

/-! ## Helper lemmas -/

theorem isPrefixOf_append_self (xs ys : List Char) : xs.isPrefixOf (xs ++ ys) = true := by
  induction xs with
  | nil => simp [List.isPrefixOf]
  | cons c cs ih => simp [List.isPrefixOf, ih]

theorem charsHasSub_mid (pat xs ys : List Char) :
    charsHasSub pat (xs ++ (pat ++ ys)) = true := by
  induction xs with
  | nil =>
    cases pat with
    | nil =>
      cases ys with
      | nil => rfl
      | cons y ys => simp [charsHasSub]
    | cons p ps => simp [charsHasSub, isPrefixOf_append_self]
  | cons c cs ih => simp [charsHasSub, ih]

theorem charsHasSub_tail (pat xs : List Char) : charsHasSub pat (xs ++ pat) = true := by
  simpa using charsHasSub_mid pat xs []

theorem raiseForStatus_ok (resp : Response) (h : 200 ≤ resp.status ∧ resp.status < 300) :
    raiseForStatus resp = .ok resp := by
  unfold raiseForStatus; rw [if_pos h]

theorem make_request_cached (st : ClientState) (t method path : String)
    (params : List (String × String)) (body : Option (List (String × String)))
    (retr : Bool) (apiResp tokenResp : Nat → Response)
    (hTok : st.accessToken = some t) :
    make_request st method path params body retr apiResp tokenResp
      = makeRequestWithToken st method (st.apiBaseUrl ++ "/" ++ lstripSlash path)
          params body retr apiResp tokenResp t 0 := by
  unfold make_request; rw [hTok]

theorem makeRequestWithToken_no_retry (st : ClientState) (method url : String)
    (params : List (String × String)) (body : Option (List (String × String)))
    (retr : Bool) (apiResp tokenResp : Nat → Response) (token : String) (k : Nat)
    (h : (retr && (apiResp 0).status == 401
          && strContains (apiResp 0).text "INVALID_SESSION_ID") = false) :
    makeRequestWithToken st method url params body retr apiResp tokenResp token k
      = { outcome := raiseForStatus (apiResp 0), state := st
        , sent := [{ method := method, url := url, params := params, body := body
                   , authorization := "Bearer " ++ token
                   , contentType :=
                       if method.toUpper == "POST" || method.toUpper == "PATCH" then
                         some "application/json"
                       else none }]
        , refreshCalls := k } := by
  simp only [makeRequestWithToken, h, Bool.false_eq_true, if_false]

theorem makeRequestWithToken_retry (st : ClientState) (method url : String)
    (params : List (String × String)) (body : Option (List (String × String)))
    (apiResp tokenResp : Nat → Response) (token : String) (k : Nat) (newTok : String)
    (h401 : (apiResp 0).status = 401)
    (hMark : strContains (apiResp 0).text "INVALID_SESSION_ID" = true)
    (hRef : (refresh_access_token st (tokenResp k)).outcome = .ok newTok) :
    makeRequestWithToken st method url params body true apiResp tokenResp token k
      = { outcome := raiseForStatus (apiResp 1)
        , state := (refresh_access_token st (tokenResp k)).state
        , sent := [{ method := method, url := url, params := params, body := body
                   , authorization := "Bearer " ++ token
                   , contentType :=
                       if method.toUpper == "POST" || method.toUpper == "PATCH" then
                         some "application/json"
                       else none },
                   { method := method, url := url, params := params, body := body
                   , authorization := "Bearer " ++ token, contentType := none }]
        , refreshCalls := k + 1 } := by
  simp only [makeRequestWithToken, h401, hMark, hRef, beq_self_eq_true, Bool.and_true,
    Bool.true_and, if_true]

/-! ## Concrete sample data for closed theorems and witnesses -/

/-- A client state as produced by the constructor followed by one successful
refresh that minted "oldTok". -/
def stCached : ClientState :=
  { instanceUrl := "https://org.my.salesforce.com"
  , apiVersion := "v60.0"
  , apiBaseUrl := "https://org.my.salesforce.com/services/data/v60.0"
  , accessToken := some "oldTok" }

/-- A freshly constructed client. -/
def stFresh : ClientState := initClient "https://org.my.salesforce.com" "v60.0"

/-- A 2xx resource response carrying a created record id. -/
def respCreated : Response :=
  { status := 201, text := "created", json := [("id", "003xyz")] }

/-- The Salesforce invalid-session failure shape. -/
def respInvalidSession : Response :=
  { status := 401
  , text := "[errorCode INVALID_SESSION_ID - Session expired or invalid]"
  , json := [] }

/-- A successful token-endpoint response minting "newTok". -/
def respMintNew : Response :=
  { status := 200, text := "minted"
  , json := [("access_token", "newTok"), ("instance_url", "https://new.my.salesforce.com/")] }

/-- Resource oracle: first response invalid-session, then success. -/
def apiInvalidThenOk : Nat → Response :=
  fun i => if i == 0 then respInvalidSession else respCreated

/-- Resource oracle: always succeed. -/
def apiAlwaysOk : Nat → Response := fun _ => respCreated

/-- Token oracle: always mint "newTok". -/
def tokenAlwaysMint : Nat → Response := fun _ => respMintNew

/-! ## Claims -/

/-- Claim C1 (the code violates it): on a freshly constructed client no access
token has ever been minted, yet `_make_request` performs NO refresh before
sending — the constructor caches the empty string while the pipeline compares
against Python `None`, so the guard is dead and the request goes out with the
header "Bearer " and an empty token. -/
theorem c1_fresh_client_sends_without_refresh :
    stFresh.accessToken = some "" ∧
    (make_request stFresh "GET" "/query" [] none true apiAlwaysOk tokenAlwaysMint).refreshCalls
      = 0 ∧
    (make_request stFresh "GET" "/query" [] none true apiAlwaysOk
        tokenAlwaysMint).sent.map SentRequest.authorization = ["Bearer "] := by
  exact ⟨rfl, rfl, rfl⟩

/-- Claim C2 (the code violates it): after a 401/INVALID_SESSION_ID response
the pipeline refreshes (the state ends holding the newly minted token
"newTok"), but the retried request is sent with the stale local token variable:
both requests carry "Bearer oldTok", and the retry does not carry the most
recently minted token. -/
theorem c2_retry_carries_stale_token :
    (make_request stCached "GET" "/sobjects/Contact/003xyz" [] none true
        apiInvalidThenOk tokenAlwaysMint).refreshCalls = 1 ∧
    (make_request stCached "GET" "/sobjects/Contact/003xyz" [] none true
        apiInvalidThenOk tokenAlwaysMint).state.accessToken = some "newTok" ∧
    (make_request stCached "GET" "/sobjects/Contact/003xyz" [] none true
        apiInvalidThenOk tokenAlwaysMint).sent.map SentRequest.authorization
      = ["Bearer oldTok", "Bearer oldTok"] ∧
    "Bearer oldTok" ≠ "Bearer newTok" := by
  exact ⟨rfl, rfl, rfl, by decide⟩

/-- Claim C10: when the token refresh fails because the token endpoint returned
an error status (>= 400), it raises `SalesforceAuthError` with that status and
body and leaves the whole cached client state (token, instance URL, API base
URL) exactly as it was. -/
theorem c10_refresh_error_preserves_state (st : ClientState) (resp : Response)
    (h : 400 ≤ resp.status) :
    (refresh_access_token st resp).outcome
        = .error (.salesforceAuthError resp.status resp.text) ∧
    (refresh_access_token st resp).state = st := by
  unfold refresh_access_token
  rw [if_pos h]
  exact ⟨rfl, rfl⟩

/-- Witness for C10 at a concrete 500 response. -/
theorem c10_witness :
    (refresh_access_token stCached
        { status := 500, text := "server error", json := [] }).outcome
      = .error (.salesforceAuthError 500 "server error") ∧
    (refresh_access_token stCached
        { status := 500, text := "server error", json := [] }).state = stCached :=
  c10_refresh_error_preserves_state stCached
    { status := 500, text := "server error", json := [] } (by decide)

/-- Claim C4 counterexample: the refresh guard is `status_code >= 400`, not
"non-2xx". A 302 response is not 2xx yet refresh succeeds instead of raising
AuthenticationError, and a 204 response is 2xx yet refresh raises a KeyError
(no `access_token` field) instead of succeeding. -/
theorem c4_counterexample :
    (¬ (200 ≤ 302 ∧ 302 < 300) ∧
      (refresh_access_token stCached
          { status := 302, text := "redirect"
          , json := [("access_token", "tokViaRedirect")] }).outcome
        = .ok "tokViaRedirect") ∧
    ((200 ≤ 204 ∧ 204 < 300) ∧
      (refresh_access_token stCached
          { status := 204, text := "", json := [] }).outcome
        = .error (.keyError "access_token")) := by
  exact ⟨⟨by decide, rfl⟩, ⟨by decide, rfl⟩⟩

/-- Claim C4 (amended): `_refresh_access_token` raises `SalesforceAuthError`
carrying the response status and body if and only if the token endpoint status
is at least 400; on any response with status below 400 whose JSON contains
`access_token`, it succeeds and returns that token. -/
theorem c4_refresh_raises_iff_ge_400 (st : ClientState) (resp : Response) :
    ((refresh_access_token st resp).outcome
        = .error (.salesforceAuthError resp.status resp.text) ↔ 400 ≤ resp.status) ∧
    (∀ tok : String, resp.status < 400 →
      lookupJson resp.json "access_token" = some tok →
      (refresh_access_token st resp).outcome = .ok tok) := by
  constructor
  · constructor
    · intro h
      by_contra hge
      have hlt : resp.status < 400 := by omega
      unfold refresh_access_token at h
      rw [if_neg (by omega)] at h
      cases hl : lookupJson resp.json "access_token" with
      | none => rw [hl] at h; simp at h
      | some tok => rw [hl] at h; simp at h
    · intro h
      unfold refresh_access_token
      rw [if_pos h]
  · intro tok hlt hl
    unfold refresh_access_token
    rw [if_neg (by omega), hl]

/-- Witness for C4 at concrete inputs: a 400 response raises, a 200 response
with an access_token succeeds. -/
theorem c4_witness :
    (refresh_access_token stCached
        { status := 400, text := "bad request", json := [] }).outcome
      = .error (.salesforceAuthError 400 "bad request") ∧
    (refresh_access_token stCached respMintNew).outcome = .ok "newTok" := by
  constructor
  · exact (c4_refresh_raises_iff_ge_400 stCached
      { status := 400, text := "bad request", json := [] }).1.mpr (by decide)
  · exact (c4_refresh_raises_iff_ge_400 stCached respMintNew).2 "newTok" (by decide) rfl

/-- Claim C3: whenever the first response is a 401 whose body contains
INVALID_SESSION_ID (and the refresh that follows succeeds, minting some token),
the pipeline performs exactly one token refresh and sends exactly one retried
request (two requests in total), and its outcome is exactly
`raise_for_status` of the second response: a successful retry is returned, a
failing retry is surfaced as the corresponding HTTP status error, with no
further refreshes or retries. -/
theorem c3_retry_exactly_once
    (st : ClientState) (t : String) (hTok : st.accessToken = some t)
    (method path : String) (params : List (String × String))
    (body : Option (List (String × String)))
    (apiResp tokenResp : Nat → Response)
    (h401 : (apiResp 0).status = 401)
    (hMark : strContains (apiResp 0).text "INVALID_SESSION_ID" = true)
    (newTok : String)
    (hRef : (refresh_access_token st (tokenResp 0)).outcome = .ok newTok) :
    (make_request st method path params body true apiResp tokenResp).refreshCalls = 1 ∧
    (make_request st method path params body true apiResp tokenResp).sent.length = 2 ∧
    (make_request st method path params body true apiResp tokenResp).outcome
      = raiseForStatus (apiResp 1) := by
  rw [make_request_cached st t method path params body true apiResp tokenResp hTok,
    makeRequestWithToken_retry st method _ params body apiResp tokenResp t 0 newTok
      h401 hMark hRef]
  exact ⟨rfl, rfl, rfl⟩

/-- Witness for C3: with a cached token, a first invalid-session response, a
successful refresh, and a failing second response, the call refreshes once,
sends two requests, and surfaces the second failure unchanged. -/
theorem c3_witness :
    (make_request stCached "GET" "/query" [] none true
        (fun _ => respInvalidSession) tokenAlwaysMint).refreshCalls = 1 ∧
    (make_request stCached "GET" "/query" [] none true
        (fun _ => respInvalidSession) tokenAlwaysMint).sent.length = 2 ∧
    (make_request stCached "GET" "/query" [] none true
        (fun _ => respInvalidSession) tokenAlwaysMint).outcome
      = raiseForStatus respInvalidSession :=
  c3_retry_exactly_once stCached "oldTok" rfl "GET" "/query" [] none
    (fun _ => respInvalidSession) tokenAlwaysMint rfl (by decide) "newTok" rfl

theorem makeRequestWithToken_sent_fields (st : ClientState) (method url : String)
    (params : List (String × String)) (body : Option (List (String × String)))
    (retr : Bool) (apiResp tokenResp : Nat → Response) (token : String) (k : Nat) :
    ((makeRequestWithToken st method url params body retr apiResp tokenResp
        token k).sent.map SentRequest.url
      = List.replicate (makeRequestWithToken st method url params body retr apiResp
          tokenResp token k).sent.length url) ∧
    ((makeRequestWithToken st method url params body retr apiResp tokenResp
        token k).sent.map SentRequest.params
      = List.replicate (makeRequestWithToken st method url params body retr apiResp
          tokenResp token k).sent.length params) := by
  by_cases h : (retr && (apiResp 0).status == 401
      && strContains (apiResp 0).text "INVALID_SESSION_ID") = true
  · cases hr : (refresh_access_token st (tokenResp k)).outcome with
    | error e => simp [makeRequestWithToken, h, hr, List.replicate]
    | ok newTok => simp [makeRequestWithToken, h, hr, List.replicate]
  · rw [Bool.not_eq_true] at h
    simp [makeRequestWithToken, h, List.replicate]

theorem make_request_sent_fields (st : ClientState) (t method path : String)
    (params : List (String × String)) (body : Option (List (String × String)))
    (retr : Bool) (apiResp tokenResp : Nat → Response)
    (hTok : st.accessToken = some t) :
    ((make_request st method path params body retr apiResp tokenResp).sent.map
        SentRequest.url
      = List.replicate (make_request st method path params body retr apiResp
          tokenResp).sent.length (st.apiBaseUrl ++ "/" ++ lstripSlash path)) ∧
    ((make_request st method path params body retr apiResp tokenResp).sent.map
        SentRequest.params
      = List.replicate (make_request st method path params body retr apiResp
          tokenResp).sent.length params) := by
  rw [make_request_cached st t method path params body retr apiResp tokenResp hTok]
  exact makeRequestWithToken_sent_fields st method _ params body retr apiResp
    tokenResp t 0

/-- Claim C7: every request of a pipeline call goes to the cached API base
followed by a single separator and the leading-slash-stripped path; in
particular with base `https://org.my.salesforce.com/services/data/v60.0` and
path `/sobjects/Contact/003xyz` the constructed URL is the expected one and
contains no double slash outside the scheme. -/
theorem c7_url_construction
    (st : ClientState) (t : String) (hTok : st.accessToken = some t)
    (method path : String) (params : List (String × String))
    (body : Option (List (String × String))) (retr : Bool)
    (apiResp tokenResp : Nat → Response) :
    ((make_request st method path params body retr apiResp tokenResp).sent.map
        SentRequest.url
      = List.replicate (make_request st method path params body retr apiResp
          tokenResp).sent.length (st.apiBaseUrl ++ "/" ++ lstripSlash path)) ∧
    lstripSlash "/sobjects/Contact/003xyz" = "sobjects/Contact/003xyz" ∧
    "https://org.my.salesforce.com/services/data/v60.0" ++ "/"
        ++ lstripSlash "/sobjects/Contact/003xyz"
      = "https://" ++ "org.my.salesforce.com/services/data/v60.0/sobjects/Contact/003xyz" ∧
    strContains "org.my.salesforce.com/services/data/v60.0/sobjects/Contact/003xyz" "//"
      = false := by
  refine ⟨(make_request_sent_fields st t method path params body retr apiResp
    tokenResp hTok).1, by decide, by decide, by decide⟩

/-- Witness for C7 at a concrete client and path. -/
theorem c7_witness :
    (make_request stCached "GET" "/sobjects/Contact/003xyz" [] none true apiAlwaysOk
        tokenAlwaysMint).sent.map SentRequest.url
      = ["https://org.my.salesforce.com/services/data/v60.0/sobjects/Contact/003xyz"] ∧
    strContains "org.my.salesforce.com/services/data/v60.0/sobjects/Contact/003xyz" "//"
      = false := by
  have h := c7_url_construction stCached "oldTok" rfl "GET" "/sobjects/Contact/003xyz"
    [] none true apiAlwaysOk tokenAlwaysMint
  exact ⟨h.1, h.2.2.2⟩

/-- Claim C5: a successful refresh whose response carries both `access_token`
and `instance_url` caches that token, replaces the cached instance URL with the
new host (right-stripped of slashes), recomputes the derived API base path from
it, and every request of any subsequent pipeline call is sent to a URL built
from the new base. -/
theorem c5_refresh_updates_base
    (st : ClientState) (resp : Response) (tok u : String)
    (hOk : resp.status < 400)
    (hTok : lookupJson resp.json "access_token" = some tok)
    (hUrl : lookupJson resp.json "instance_url" = some u) :
    (refresh_access_token st resp).outcome = .ok tok ∧
    (refresh_access_token st resp).state.accessToken = some tok ∧
    (refresh_access_token st resp).state.instanceUrl = rstripSlash u ∧
    (refresh_access_token st resp).state.apiBaseUrl
      = rstripSlash u ++ "/services/data/" ++ st.apiVersion ∧
    (∀ (method path : String) (params : List (String × String))
        (body : Option (List (String × String))) (retr : Bool)
        (apiResp tokenResp : Nat → Response),
      (make_request (refresh_access_token st resp).state method path params body retr
          apiResp tokenResp).sent.map SentRequest.url
        = List.replicate
            (make_request (refresh_access_token st resp).state method path params body
              retr apiResp tokenResp).sent.length
            ((refresh_access_token st resp).state.apiBaseUrl ++ "/"
              ++ lstripSlash path)) := by
  have h1 : refresh_access_token st resp
      = { outcome := .ok tok
        , state := { instanceUrl := rstripSlash u
                   , apiVersion := st.apiVersion
                   , apiBaseUrl := rstripSlash u ++ "/services/data/" ++ st.apiVersion
                   , accessToken := some tok } } := by
    unfold refresh_access_token
    rw [if_neg (by omega), hTok, hUrl]
  refine ⟨by rw [h1], by rw [h1], by rw [h1], by rw [h1], ?_⟩
  intro method path params body retr apiResp tokenResp
  exact (make_request_sent_fields (refresh_access_token st resp).state tok method path
    params body retr apiResp tokenResp (by rw [h1])).1

/-- Witness for C5 at the spec's concrete scenario: the refresh response mints
token "newTok" and moves the org to `https://new.my.salesforce.com`. -/
theorem c5_witness :
    (refresh_access_token stCached respMintNew).outcome = .ok "newTok" ∧
    (refresh_access_token stCached respMintNew).state.accessToken = some "newTok" ∧
    (refresh_access_token stCached respMintNew).state.instanceUrl
      = "https://new.my.salesforce.com" ∧
    (refresh_access_token stCached respMintNew).state.apiBaseUrl
      = "https://new.my.salesforce.com/services/data/v60.0" ∧
    (make_request (refresh_access_token stCached respMintNew).state "GET" "/query" []
        none true apiAlwaysOk tokenAlwaysMint).sent.map SentRequest.url
      = ["https://new.my.salesforce.com/services/data/v60.0/query"] := by
  have h := c5_refresh_updates_base stCached respMintNew "newTok"
    "https://new.my.salesforce.com/" (by decide) rfl rfl
  exact ⟨h.1, h.2.1, h.2.2.1, h.2.2.2.1,
    h.2.2.2.2 "GET" "/query" [] none true apiAlwaysOk tokenAlwaysMint⟩

theorem make_request_success (st : ClientState) (t method path : String)
    (params : List (String × String)) (body : Option (List (String × String)))
    (apiResp tokenResp : Nat → Response)
    (hTok : st.accessToken = some t)
    (hOk : 200 ≤ (apiResp 0).status ∧ (apiResp 0).status < 300) :
    (make_request st method path params body true apiResp tokenResp).outcome
      = .ok (apiResp 0) := by
  have hne : ((apiResp 0).status == 401) = false := by
    have h : (apiResp 0).status ≠ 401 := by omega
    simp [h]
  rw [make_request_cached st t method path params body true apiResp tokenResp hTok,
    makeRequestWithToken_no_retry _ _ _ _ _ _ _ _ _ _ (by simp [hne])]
  simp [raiseForStatus_ok (apiResp 0) hOk]

theorem extractId_some (r : RequestResult) (resp : Response) (cid : String)
    (hr : r.outcome = .ok resp) (hOk : 200 ≤ resp.status ∧ resp.status < 300)
    (hId : lookupJson resp.json "id" = some cid) :
    (extractId r).outcome = .ok cid := by
  simp only [extractId, hr, raiseForStatus_ok resp hOk, hId]

theorem extractId_missing (r : RequestResult) (resp : Response)
    (hr : r.outcome = .ok resp) (hOk : 200 ≤ resp.status ∧ resp.status < 300)
    (hId : lookupJson resp.json "id" = none) :
    (extractId r).outcome = .error (.keyError "id") := by
  simp only [extractId, hr, raiseForStatus_ok resp hOk, hId]

/-- Claim C6: for both create operations, a 2xx response whose JSON carries an
`id` field makes the operation return exactly that field's value. -/
theorem c6_create_returns_id
    (st : ClientState) (t cid : String) (hTok : st.accessToken = some t)
    (fields : List (String × String)) (apiResp tokenResp : Nat → Response)
    (hOk : 200 ≤ (apiResp 0).status ∧ (apiResp 0).status < 300)
    (hId : lookupJson (apiResp 0).json "id" = some cid) :
    (create_contact st fields apiResp tokenResp).outcome = .ok cid ∧
    (create_appointment st fields apiResp tokenResp).outcome = .ok cid := by
  have hc := make_request_success st t "POST" "/sobjects/Contact" [] (some fields)
    apiResp tokenResp hTok hOk
  have ha := make_request_success st t "POST" "/sobjects/Event" [] (some fields)
    apiResp tokenResp hTok hOk
  exact ⟨extractId_some _ _ cid hc hOk hId, extractId_some _ _ cid ha hOk hId⟩

/-- Witness for C6: a 201 response with id 003xyz makes both create operations
return "003xyz". -/
theorem c6_witness :
    (create_contact stCached [("LastName", "Doe")] apiAlwaysOk
        tokenAlwaysMint).outcome = .ok "003xyz" ∧
    (create_appointment stCached [("LastName", "Doe")] apiAlwaysOk
        tokenAlwaysMint).outcome = .ok "003xyz" :=
  c6_create_returns_id stCached "oldTok" "003xyz" rfl [("LastName", "Doe")]
    apiAlwaysOk tokenAlwaysMint (by decide) rfl

/-- Claim C9: for both create operations, a success-status response whose JSON
lacks the `id` field makes the operation fail with a plain KeyError, not a
client-specific error type. -/
theorem c9_create_missing_id_keyerror
    (st : ClientState) (t : String) (hTok : st.accessToken = some t)
    (fields : List (String × String)) (apiResp tokenResp : Nat → Response)
    (hOk : 200 ≤ (apiResp 0).status ∧ (apiResp 0).status < 300)
    (hId : lookupJson (apiResp 0).json "id" = none) :
    (create_contact st fields apiResp tokenResp).outcome
      = .error (.keyError "id") ∧
    (create_appointment st fields apiResp tokenResp).outcome
      = .error (.keyError "id") := by
  have hc := make_request_success st t "POST" "/sobjects/Contact" [] (some fields)
    apiResp tokenResp hTok hOk
  have ha := make_request_success st t "POST" "/sobjects/Event" [] (some fields)
    apiResp tokenResp hTok hOk
  exact ⟨extractId_missing _ _ hc hOk hId, extractId_missing _ _ ha hOk hId⟩

/-- A 200 response whose JSON body has no `id` field. -/
def respNoId : Response := { status := 200, text := "created", json := [("success", "true")] }

/-- Witness for C9: a 200 response without an id field makes both create
operations fail with KeyError "id". -/
theorem c9_witness :
    (create_contact stCached [("LastName", "Doe")] (fun _ => respNoId)
        tokenAlwaysMint).outcome = .error (.keyError "id") ∧
    (create_appointment stCached [("LastName", "Doe")] (fun _ => respNoId)
        tokenAlwaysMint).outcome = .error (.keyError "id") :=
  c9_create_missing_id_keyerror stCached "oldTok" rfl [("LastName", "Doe")]
    (fun _ => respNoId) tokenAlwaysMint (by decide) rfl

theorem listContactsSoql_contains_limit (n : Int) :
    strContains (listContactsSoql n) ("LIMIT " ++ toString n) = true := by
  unfold strContains listContactsSoql
  simp only [String.data_append]
  rw [List.append_assoc]
  exact charsHasSub_tail _ _

theorem listContactsSoql_contains_fields (n : Int) :
    strContains (listContactsSoql n) "Id, FirstName, LastName, Phone, Email" = true := by
  unfold strContains listContactsSoql
  have key : ("SELECT Id, FirstName, LastName, Phone, Email "
      ++ "FROM Contact ORDER BY CreatedDate DESC " ++ "LIMIT " ++ toString n).data
      = "SELECT ".data ++ ("Id, FirstName, LastName, Phone, Email".data
          ++ (" FROM Contact ORDER BY CreatedDate DESC LIMIT ".data
              ++ (toString n).data)) := by
    simp [String.data_append]
  rw [key]
  exact charsHasSub_mid _ _ _

theorem query_sent (st : ClientState) (soql : String)
    (apiResp tokenResp : Nat → Response) :
    (query st soql apiResp tokenResp).sent
      = (make_request st "GET" "/query" [("q", soql)] none true apiResp
          tokenResp).sent := by
  unfold query
  cases h : (make_request st "GET" "/query" [("q", soql)] none true apiResp
      tokenResp).outcome with
  | error e => simp [h]
  | ok resp =>
    cases hr : raiseForStatus resp with
    | error e => simp [h, hr]
    | ok resp' => simp [h, hr]

/-- Claim C8: `list_contacts(limit=n)` builds a SOQL string containing the
fixed field list and the clause `LIMIT n`, and passes it to `query`, which
sends it as the `q` query parameter of every request of the call. -/
theorem c8_list_contacts (n : Int) (st : ClientState) (t : String)
    (hTok : st.accessToken = some t) (apiResp tokenResp : Nat → Response) :
    strContains (listContactsSoql n) ("LIMIT " ++ toString n) = true ∧
    strContains (listContactsSoql n) "Id, FirstName, LastName, Phone, Email" = true ∧
    list_contacts st n apiResp tokenResp
      = query st (listContactsSoql n) apiResp tokenResp ∧
    (list_contacts st n apiResp tokenResp).sent.map SentRequest.params
      = List.replicate (list_contacts st n apiResp tokenResp).sent.length
          [("q", listContactsSoql n)] := by
  refine ⟨listContactsSoql_contains_limit n, listContactsSoql_contains_fields n,
    rfl, ?_⟩
  unfold list_contacts
  rw [query_sent st (listContactsSoql n) apiResp tokenResp]
  exact (make_request_sent_fields st t "GET" "/query" [("q", listContactsSoql n)]
    none true apiResp tokenResp hTok).2

/-- Witness for C8 at limit 5: the SOQL string contains `LIMIT 5` and the
field list, and the single request sent carries it as the `q` parameter. -/
theorem c8_witness :
    strContains (listContactsSoql 5) "LIMIT 5" = true ∧
    strContains (listContactsSoql 5) "Id, FirstName, LastName, Phone, Email" = true ∧
    (list_contacts stCached 5 apiAlwaysOk tokenAlwaysMint).sent.map
        SentRequest.params
      = [[("q", listContactsSoql 5)]] := by
  have h := c8_list_contacts 5 stCached "oldTok" rfl apiAlwaysOk tokenAlwaysMint
  exact ⟨h.1, h.2.1, h.2.2.2⟩
